import Mathlib

/-!
Verification of the doji_alert stock-screening script.

The script fetches tick data for a fixed list of NSE symbols, aggregates
the ticks falling in the 09:15-09:20 time-of-day window into a single OHLC
candle, classifies the candle as Doji or Gravestone Doji, keeps the
matches whose high-low range is below one percent of the open price, and
emails the resulting table.

Modelling conventions:
- Python floats are modelled as exact rationals.
- A tick timestamp is its epoch-millisecond value; the script converts it
  with utcfromtimestamp and compares the time-of-day component, which is
  the millisecond count reduced modulo one day (09:15:00 is 33300000 ms,
  09:20:00 is 33600000 ms after midnight).
- The upstream HTTP world is an oracle indexed by attempt number, so that
  a retrying implementation could be expressed in the same vocabulary; the
  script consults only attempt 0.
-/

/-- A tick: epoch-millisecond timestamp and price, as built by fetch_ticks
from one pair of the upstream grapthData field. -/
structure Tick where
  tsMs : Nat
  price : ℚ
deriving DecidableEq

/-- Time of day of a tick in milliseconds, the dt.time() component used by
aggregate_5min. -/
def timeOfDayMs (t : Tick) : Nat := t.tsMs % 86400000

/-- An OHLC candle; o, h, l, c are the open, high, low and close entries
of the dict built by aggregate_5min. -/
structure Candle where
  o : ℚ
  h : ℚ
  l : ℚ
  c : ℚ
deriving DecidableEq

/-- The window comprehension of aggregate_5min: prices of the ticks whose
time of day lies in the half-open interval from 09:15:00 to 09:20:00,
in their original order. -/
def windowPrices (ticks : List Tick) : List ℚ :=
  (ticks.filter fun t =>
    decide (33300000 ≤ timeOfDayMs t ∧ timeOfDayMs t < 33600000)).map Tick.price

/-- aggregate_5min from the script: None when the window is empty,
otherwise the dict with open = first window price, high = max, low = min,
close = last window price. -/
def aggregate_5min (ticks : List Tick) : Option Candle :=
  match windowPrices ticks with
  | [] => none
  | p :: ps =>
      some (Candle.mk p (List.foldl max p ps) (List.foldl min p ps)
        (List.getLast (p :: ps) (List.cons_ne_nil p ps)))

theorem self_le_foldl_max (t : List ℚ) : ∀ a : ℚ, a ≤ t.foldl max a := by
  induction t with
  | nil => intro a; exact le_refl a
  | cons b r ih => intro a; exact le_trans (le_max_left a b) (ih (max a b))

theorem mem_le_foldl_max (t : List ℚ) : ∀ a x : ℚ, x ∈ t → x ≤ t.foldl max a := by
  induction t with
  | nil => intro a x hx; cases hx
  | cons b r ih =>
      intro a x hx
      rcases List.mem_cons.mp hx with h | h
      · subst h; exact le_trans (le_max_right a x) (self_le_foldl_max r (max a x))
      · exact ih (max a b) x h

theorem foldl_min_le_self (t : List ℚ) : ∀ a : ℚ, t.foldl min a ≤ a := by
  induction t with
  | nil => intro a; exact le_refl a
  | cons b r ih => intro a; exact le_trans (ih (min a b)) (min_le_left a b)

theorem foldl_min_le_mem (t : List ℚ) : ∀ a x : ℚ, x ∈ t → t.foldl min a ≤ x := by
  induction t with
  | nil => intro a x hx; cases hx
  | cons b r ih =>
      intro a x hx
      rcases List.mem_cons.mp hx with h | h
      · subst h; exact le_trans (foldl_min_le_self r (min a x)) (min_le_right a x)
      · exact ih (min a b) x h

theorem foldl_max_mem (t : List ℚ) : ∀ a : ℚ, t.foldl max a = a ∨ t.foldl max a ∈ t := by
  induction t with
  | nil => intro a; exact Or.inl rfl
  | cons b r ih =>
      intro a
      simp only [List.foldl_cons]
      rcases ih (max a b) with h | h
      · rcases max_choice a b with hm | hm
        · exact Or.inl (by rw [h, hm])
        · exact Or.inr (by rw [h, hm]; exact List.mem_cons_self b r)
      · exact Or.inr (List.mem_cons_of_mem b h)

theorem foldl_min_mem (t : List ℚ) : ∀ a : ℚ, t.foldl min a = a ∨ t.foldl min a ∈ t := by
  induction t with
  | nil => intro a; exact Or.inl rfl
  | cons b r ih =>
      intro a
      simp only [List.foldl_cons]
      rcases ih (min a b) with h | h
      · rcases min_choice a b with hm | hm
        · exact Or.inl (by rw [h, hm])
        · exact Or.inr (by rw [h, hm]; exact List.mem_cons_self b r)
      · exact Or.inr (List.mem_cons_of_mem b h)

/-- Characterisation of a successful aggregation in terms of the window
price list. -/
theorem aggregate_char (ticks : List Tick) (cd : Candle)
    (hagg : aggregate_5min ticks = some cd) :
    ∃ p ps, windowPrices ticks = p :: ps ∧ cd.o = p ∧
      cd.h = List.foldl max p ps ∧ cd.l = List.foldl min p ps ∧
      cd.c = List.getLast (p :: ps) (List.cons_ne_nil p ps) := by
  unfold aggregate_5min at hagg
  cases hw : windowPrices ticks with
  | nil => rw [hw] at hagg; cases hagg
  | cons p ps =>
      rw [hw] at hagg
      simp only [Option.some.injEq] at hagg
      subst hagg
      exact ⟨p, ps, rfl, rfl, rfl, rfl, rfl⟩

/-- C2: aggregate_5min keeps exactly the ticks whose time of day t
satisfies 09:15:00 <= t < 09:20:00 (inclusive start, exclusive end, in
milliseconds 33300000 and 33600000), preserving the original order of the
sequence; it returns none exactly when no tick falls in the window, and
otherwise a candle whose open is the first window price, close the last,
high the maximum and low the minimum of the window prices. -/
theorem aggregate_5min_spec (ticks : List Tick) :
    (aggregate_5min ticks = none ↔
      ∀ t ∈ ticks, ¬(33300000 ≤ timeOfDayMs t ∧ timeOfDayMs t < 33600000)) ∧
    (windowPrices ticks).Sublist (ticks.map Tick.price) ∧
    ∀ cd, aggregate_5min ticks = some cd →
      ∃ p ps, windowPrices ticks = p :: ps ∧ cd.o = p ∧
        cd.c = List.getLast (p :: ps) (List.cons_ne_nil p ps) ∧
        cd.h ∈ p :: ps ∧ (∀ x ∈ p :: ps, x ≤ cd.h) ∧
        cd.l ∈ p :: ps ∧ ∀ x ∈ p :: ps, cd.l ≤ x := by
  have hA : aggregate_5min ticks = none ↔ windowPrices ticks = [] := by
    unfold aggregate_5min
    cases hw : windowPrices ticks with
    | nil => simp
    | cons p ps => simp
  refine ⟨?_, ?_, ?_⟩
  · rw [hA]
    unfold windowPrices
    simp [List.filter_eq_nil_iff]
  · exact List.Sublist.map Tick.price (List.filter_sublist ticks)
  · intro cd hagg
    obtain ⟨p, ps, hw, ho, hh, hl, hc⟩ := aggregate_char ticks cd hagg
    refine ⟨p, ps, hw, ho, hc, ?_, ?_, ?_, ?_⟩
    · rw [hh]
      rcases foldl_max_mem ps p with h | h
      · rw [h]; exact List.mem_cons_self p ps
      · exact List.mem_cons_of_mem p h
    · intro x hx
      rw [hh]
      rcases List.mem_cons.mp hx with h | h
      · subst h; exact self_le_foldl_max ps x
      · exact mem_le_foldl_max ps p x h
    · rw [hl]
      rcases foldl_min_mem ps p with h | h
      · rw [h]; exact List.mem_cons_self p ps
      · exact List.mem_cons_of_mem p h
    · intro x hx
      rw [hl]
      rcases List.mem_cons.mp hx with h | h
      · subst h; exact foldl_min_le_self ps x
      · exact foldl_min_le_mem ps p x h

theorem aggregate_5min_spec_witness :
    ∃ p ps, windowPrices [Tick.mk 33300000 100, Tick.mk 33301000 101] = p :: ps ∧
      (Candle.mk 100 101 100 101).o = p ∧
      (Candle.mk 100 101 100 101).c = List.getLast (p :: ps) (List.cons_ne_nil p ps) ∧
      (Candle.mk 100 101 100 101).h ∈ p :: ps ∧
      (∀ x ∈ p :: ps, x ≤ (Candle.mk 100 101 100 101).h) ∧
      (Candle.mk 100 101 100 101).l ∈ p :: ps ∧
      ∀ x ∈ p :: ps, (Candle.mk 100 101 100 101).l ≤ x :=
  (aggregate_5min_spec [Tick.mk 33300000 100, Tick.mk 33301000 101]).2.2
    (Candle.mk 100 101 100 101) (by decide)

/-- C10: every candle produced from a non-empty tick window satisfies
low <= open <= high, low <= close <= high and high >= low. -/
theorem candle_invariant (ticks : List Tick) (cd : Candle)
    (hagg : aggregate_5min ticks = some cd) :
    cd.l ≤ cd.o ∧ cd.o ≤ cd.h ∧ cd.l ≤ cd.c ∧ cd.c ≤ cd.h ∧ cd.l ≤ cd.h := by
  obtain ⟨p, ps, hw, ho, hh, hl, hc⟩ := aggregate_char ticks cd hagg
  have hcmem : List.getLast (p :: ps) (List.cons_ne_nil p ps) ∈ p :: ps :=
    List.getLast_mem (List.cons_ne_nil p ps)
  refine ⟨?_, ?_, ?_, ?_, ?_⟩
  · rw [hl, ho]; exact foldl_min_le_self ps p
  · rw [ho, hh]; exact self_le_foldl_max ps p
  · rw [hl, hc]
    rcases List.mem_cons.mp hcmem with h | h
    · rw [h]; exact foldl_min_le_self ps p
    · exact foldl_min_le_mem ps p _ h
  · rw [hc, hh]
    rcases List.mem_cons.mp hcmem with h | h
    · rw [h]; exact self_le_foldl_max ps p
    · exact mem_le_foldl_max ps p _ h
  · rw [hl, hh]
    exact le_trans (foldl_min_le_self ps p) (self_le_foldl_max ps p)

theorem candle_invariant_witness :
    (Candle.mk 50 51 50 51).l ≤ (Candle.mk 50 51 50 51).o ∧
    (Candle.mk 50 51 50 51).o ≤ (Candle.mk 50 51 50 51).h ∧
    (Candle.mk 50 51 50 51).l ≤ (Candle.mk 50 51 50 51).c ∧
    (Candle.mk 50 51 50 51).c ≤ (Candle.mk 50 51 50 51).h ∧
    (Candle.mk 50 51 50 51).l ≤ (Candle.mk 50 51 50 51).h :=
  candle_invariant [Tick.mk 33300000 50, Tick.mk 33310000 51]
    (Candle.mk 50 51 50 51) (by decide)

/-- Pattern kinds returned by is_doji, the strings Gravestone Doji and
Doji of the script. -/
inductive DojiKind where
  | gravestone
  | doji
deriving DecidableEq

/-- is_doji from the script: (False, None) when the range is nonpositive
or the body exceeds body_thresh times the range; otherwise Gravestone
Doji when the lower shadow is at most 1.5 times the body and the upper
shadow at least twice the body, else plain Doji. -/
def is_doji (ohlc : Candle) (body_thresh : ℚ) : Bool × Option DojiKind :=
  let body := |ohlc.c - ohlc.o|
  let rng := ohlc.h - ohlc.l
  if rng ≤ 0 ∨ body / rng > body_thresh then (false, none)
  else if min ohlc.o ohlc.c - ohlc.l ≤ body * (3 / 2) ∧
      ohlc.h - max ohlc.o ohlc.c ≥ body * 2 then (true, some DojiKind.gravestone)
  else (true, some DojiKind.doji)

/-- C3: with the default threshold 0.1 the classifier returns not-a-match
whenever range = high - low is nonpositive, and whenever the range is
positive but body / range exceeds 0.1, where body is the absolute
open-close difference. -/
theorem is_doji_reject (cd : Candle) :
    (cd.h - cd.l ≤ 0 → is_doji cd (1 / 10) = (false, none)) ∧
    (0 < cd.h - cd.l → |cd.c - cd.o| / (cd.h - cd.l) > 1 / 10 →
      is_doji cd (1 / 10) = (false, none)) := by
  constructor
  · intro h
    simp only [is_doji]
    rw [if_pos (Or.inl h)]
  · intro _ h2
    simp only [is_doji]
    rw [if_pos (Or.inr h2)]

theorem is_doji_reject_witness :
    ((Candle.mk 100 100 100 100).h - (Candle.mk 100 100 100 100).l ≤ 0 ∧
      is_doji (Candle.mk 100 100 100 100) (1 / 10) = (false, none)) ∧
    (0 < (Candle.mk 100 (2001 / 20) (4999 / 50) (5001 / 50)).h -
        (Candle.mk 100 (2001 / 20) (4999 / 50) (5001 / 50)).l ∧
      |(Candle.mk 100 (2001 / 20) (4999 / 50) (5001 / 50)).c -
          (Candle.mk 100 (2001 / 20) (4999 / 50) (5001 / 50)).o| /
        ((Candle.mk 100 (2001 / 20) (4999 / 50) (5001 / 50)).h -
          (Candle.mk 100 (2001 / 20) (4999 / 50) (5001 / 50)).l) > 1 / 10 ∧
      is_doji (Candle.mk 100 (2001 / 20) (4999 / 50) (5001 / 50)) (1 / 10) = (false, none)) :=
  ⟨⟨by norm_num, (is_doji_reject (Candle.mk 100 100 100 100)).1 (by norm_num)⟩,
   ⟨by norm_num, by norm_num [abs_of_nonneg],
    (is_doji_reject (Candle.mk 100 (2001 / 20) (4999 / 50) (5001 / 50))).2
      (by norm_num) (by norm_num [abs_of_nonneg])⟩⟩

/-- C4: for a candle that passes the body threshold (positive range and
body / range at most 0.1) the classifier answers Gravestone Doji exactly
when the lower shadow is at most 1.5 times the body and the upper shadow
at least twice the body, and plain Doji otherwise; in particular a zero
body together with a low strictly below min(open, close) forces plain
Doji. -/
theorem is_doji_classify (cd : Candle)
    (h1 : 0 < cd.h - cd.l)
    (h2 : |cd.c - cd.o| / (cd.h - cd.l) ≤ 1 / 10) :
    (is_doji cd (1 / 10) = (true, some DojiKind.gravestone) ↔
      min cd.o cd.c - cd.l ≤ |cd.c - cd.o| * (3 / 2) ∧
        cd.h - max cd.o cd.c ≥ |cd.c - cd.o| * 2) ∧
    (is_doji cd (1 / 10) = (true, some DojiKind.doji) ↔
      ¬(min cd.o cd.c - cd.l ≤ |cd.c - cd.o| * (3 / 2) ∧
        cd.h - max cd.o cd.c ≥ |cd.c - cd.o| * 2)) ∧
    (cd.c = cd.o → cd.l < min cd.o cd.c →
      is_doji cd (1 / 10) = (true, some DojiKind.doji)) := by
  have hcond : ¬(cd.h - cd.l ≤ 0 ∨ |cd.c - cd.o| / (cd.h - cd.l) > 1 / 10) := by
    rintro (h | h)
    · exact absurd h (not_le.mpr h1)
    · exact absurd h (not_lt.mpr h2)
  simp only [is_doji]
  rw [if_neg hcond]
  by_cases hC : min cd.o cd.c - cd.l ≤ |cd.c - cd.o| * (3 / 2) ∧
      cd.h - max cd.o cd.c ≥ |cd.c - cd.o| * 2
  · rw [if_pos hC]
    refine ⟨⟨fun _ => hC, fun _ => rfl⟩,
      ⟨fun hcontra => ?_, fun hn => absurd hC hn⟩, fun hco hlt => ?_⟩
    · simp at hcontra
    · exfalso
      have hb : |cd.c - cd.o| = 0 := by rw [hco, sub_self, abs_zero]
      have hC1 := hC.1
      rw [hb] at hC1
      have h0 : min cd.o cd.c - cd.l ≤ 0 := by simpa using hC1
      linarith
  · rw [if_neg hC]
    refine ⟨⟨fun hcontra => ?_, fun h => absurd h hC⟩,
      ⟨fun _ => hC, fun _ => rfl⟩, fun _ _ => rfl⟩
    · simp at hcontra

theorem is_doji_classify_witness :
    is_doji (Candle.mk 100 (201 / 2) (1999 / 20) (10001 / 100)) (1 / 10) =
      (true, some DojiKind.doji) := by
  have h := is_doji_classify (Candle.mk 100 (201 / 2) (1999 / 20) (10001 / 100))
    (by norm_num) (by norm_num [abs_of_nonneg])
  exact h.2.1.mpr (by norm_num [abs_of_nonneg, min_def, max_def])

/-- One attempt's worth of upstream world for fetch_ticks: whether the
priming GET raises, its status, whether the chart-data GET raises, its
status, and its parsed body.  A dataBody of none models a body that is
not JSON, so r.json() raises; some none models JSON without a grapthData
field, so the .get default applies; some (some d) models grapthData = d. -/
structure Upstream where
  primeRaises : Bool
  primeStatus : Nat
  dataRaises : Bool
  dataStatus : Nat
  dataBody : Option (Option (List (Nat × ℚ)))

/-- Observable request and delay events of one fetch_ticks call. -/
inductive FetchEvent where
  | primeReq (status : Nat)
  | dataReq (status : Nat)
  | sleepEv (ms : Nat)
deriving DecidableEq

/-- The try block of fetch_ticks over one attempt of the upstream world:
the events it emits, and either the list it returns or the exception it
raises.  It mirrors the straight-line source: one priming request, one
chart-data request, a ValueError on a non-200 data status, the json
parse, the grapthData extraction with default, the empty check, and the
list comprehension building (timestamp, price) pairs. -/
def fetch_attempt (u : Upstream) : List FetchEvent × Except String (List Tick) :=
  if u.primeRaises then ([], Except.error "request exception")
  else if u.dataRaises then
    ([FetchEvent.primeReq u.primeStatus], Except.error "request exception")
  else if u.dataStatus ≠ 200 then
    ([FetchEvent.primeReq u.primeStatus, FetchEvent.dataReq u.dataStatus],
      Except.error "ValueError: non-200 status code")
  else
    match u.dataBody with
    | none =>
        ([FetchEvent.primeReq u.primeStatus, FetchEvent.dataReq u.dataStatus],
          Except.error "JSONDecodeError")
    | some none =>
        ([FetchEvent.primeReq u.primeStatus, FetchEvent.dataReq u.dataStatus],
          Except.ok [])
    | some (some d) =>
        ([FetchEvent.primeReq u.primeStatus, FetchEvent.dataReq u.dataStatus],
          if d.isEmpty then Except.ok []
          else Except.ok (d.map fun tp => Tick.mk tp.1 tp.2))

/-- fetch_ticks from the script, over an upstream oracle indexed by
attempt number: the except clause turns any raised exception into an
empty list.  The source has no retry loop, so only attempt 0 of the
oracle is consulted. -/
def fetch_ticks (env : Nat → Upstream) : List Tick :=
  match (fetch_attempt (env 0)).2 with
  | Except.ok l => l
  | Except.error _ => []

/-- The events emitted by one fetch_ticks call. -/
def fetch_events (env : Nat → Upstream) : List FetchEvent :=
  (fetch_attempt (env 0)).1

theorem fetch_attempt_shape (u : Upstream) :
    (fetch_attempt u).1.length ≤ 2 ∧ ∀ m, FetchEvent.sleepEv m ∉ (fetch_attempt u).1 := by
  rcases u with ⟨pr, pst, dr, dst, db⟩
  unfold fetch_attempt
  cases pr with
  | true => simp
  | false =>
      cases dr with
      | true => simp
      | false =>
          by_cases h : dst ≠ 200
          · simp [h]
          · rcases db with _ | db2
            · simp [h]
            · rcases db2 with _ | d
              · simp [h]
              · simp [h]

/-- C6: fetch_ticks never propagates an exception: whenever the request
block raises, it returns the empty sequence; a parsed response whose
grapthData field is present but empty also yields the empty sequence;
and on success every [timestamp-millis, price] pair becomes a tick whose
timestamp is the epoch-millisecond instant and whose price is taken
as-is. -/
theorem fetch_ticks_spec (env : Nat → Upstream) :
    (∀ e, (fetch_attempt (env 0)).2 = Except.error e → fetch_ticks env = []) ∧
    ((env 0).primeRaises = false → (env 0).dataRaises = false →
      (env 0).dataStatus = 200 → (env 0).dataBody = some (some []) →
      fetch_ticks env = []) ∧
    ∀ d, (env 0).primeRaises = false → (env 0).dataRaises = false →
      (env 0).dataStatus = 200 → (env 0).dataBody = some (some d) →
      fetch_ticks env = d.map fun tp => Tick.mk tp.1 tp.2 := by
  refine ⟨?_, ?_, ?_⟩
  · intro e he
    unfold fetch_ticks
    rw [he]
  · intro h1 h2 h3 h4
    simp [fetch_ticks, fetch_attempt, h1, h2, h3, h4]
  · intro d h1 h2 h3 h4
    cases d with
    | nil => simp [fetch_ticks, fetch_attempt, h1, h2, h3, h4]
    | cons a t => simp [fetch_ticks, fetch_attempt, h1, h2, h3, h4]

theorem fetch_ticks_spec_witness :
    fetch_ticks (fun _ => Upstream.mk false 200 false 200 (some (some [(33300000, 100)]))) =
      [Tick.mk 33300000 100] :=
  (fetch_ticks_spec (fun _ => Upstream.mk false 200 false 200
    (some (some [(33300000, 100)])))).2.2 [(33300000, 100)] rfl rfl rfl rfl

/-- A world in which every attempt answers the chart-data request with a
sustained 500 status. -/
def env500 : Nat → Upstream :=
  fun _ => Upstream.mk false 200 false 500 (some (some [(33300000, 100)]))

/-- C5 counterexample: on sustained 500 responses fetch_ticks issues
exactly one priming request and one data request, emits no backoff delay
event, and returns the empty list at once; it has no maxAttempts
parameter and never retries, so it does not retry maxAttempts times with
exponentially increasing delays as claimed. -/
theorem fetch_retry_counterexample :
    fetch_events env500 = [FetchEvent.primeReq 200, FetchEvent.dataReq 500] ∧
    fetch_ticks env500 = [] :=
  ⟨rfl, rfl⟩

/-- C5 amended: fetch_ticks takes no maxAttempts parameter and performs
no retries and no backoff: its behaviour depends only on attempt 0 of
the upstream oracle, it emits at most two request events and no delay
events, and on any non-200 data status (including sustained 500) it
returns the empty sequence immediately after that single pair of
requests. -/
theorem fetch_no_retry (env : Nat → Upstream) :
    (∀ env' : Nat → Upstream, env' 0 = env 0 →
      fetch_ticks env' = fetch_ticks env ∧ fetch_events env' = fetch_events env) ∧
    (fetch_events env).length ≤ 2 ∧
    (∀ m, FetchEvent.sleepEv m ∉ fetch_events env) ∧
    ((env 0).primeRaises = false → (env 0).dataRaises = false →
      (env 0).dataStatus ≠ 200 →
      fetch_ticks env = [] ∧
      fetch_events env = [FetchEvent.primeReq (env 0).primeStatus,
        FetchEvent.dataReq (env 0).dataStatus]) := by
  refine ⟨?_, ?_, ?_, ?_⟩
  · intro env' he
    exact ⟨by simp [fetch_ticks, he], by simp [fetch_events, he]⟩
  · exact (fetch_attempt_shape (env 0)).1
  · exact (fetch_attempt_shape (env 0)).2
  · intro h1 h2 h3
    constructor
    · simp [fetch_ticks, fetch_attempt, h1, h2, h3]
    · simp [fetch_events, fetch_attempt, h1, h2, h3]

theorem fetch_no_retry_witness :
    fetch_ticks (fun _ => Upstream.mk false 200 false 404 none) = [] ∧
    fetch_events (fun _ => Upstream.mk false 200 false 404 none) =
      [FetchEvent.primeReq 200, FetchEvent.dataReq 404] :=
  (fetch_no_retry (fun _ => Upstream.mk false 200 false 404 none)).2.2.2
    rfl rfl (by decide)

/-- The hardcoded symbol list of the script. -/
def SYMBOLS : List String := [
  "ABB", "ACC", "APLAPOLLO", "AUBANK", "AARTIIND", "ADANIENSOL", "ADANIENT", "ADANIGREEN",
  "ADANIPORTS", "ATGL", "ABCAPITAL", "ABFRL", "ALKEM", "AMBUJACEM", "ANGELONE", "APOLLOHOSP",
  "APOLLOTYRE", "ASHOKLEY", "ASIANPAINT", "ASTRAL", "AUROPHARMA", "DMART", "AXISBANK", "BSOFT",
  "BSE", "BAJAJ-AUTO", "BAJFINANCE", "BAJAJFINSV", "BALKRISIND", "BANDHANBNK", "BANKBARODA",
  "BANKINDIA", "BEL", "BHARATFORG", "BHEL", "BPCL", "BHARTIARTL", "BIOCON", "BOSCHLTD",
  "BRITANNIA", "CESC", "CGPOWER", "CANBK", "CDSL", "CHAMBLFERT", "CHOLAFIN", "CIPLA",
  "COALINDIA", "COFORGE", "COLPAL", "CAMS", "CONCOR", "CROMPTON", "CUMMINSIND", "CYIENT",
  "DLF", "DABUR", "DALBHARAT", "DEEPAKNTR", "DELHIVERY", "DIVISLAB", "DIXON", "DRREDDY",
  "ETERNAL", "EICHERMOT", "ESCORTS", "EXIDEIND", "NYKAA", "GAIL", "GMRAIRPORT", "GLENMARK",
  "GODREJCP", "GODREJPROP", "GRANULES", "GRASIM", "HCLTECH", "HDFCAMC", "HDFCBANK", "HDFCLIFE",
  "HFCL", "HAVELLS", "HEROMOTOCO", "HINDALCO", "HAL", "HINDCOPPER", "HINDPETRO", "HINDUNILVR",
  "HINDZINC", "HUDCO", "ICICIBANK", "ICICIGI", "ICICIPRULI", "IDFCFIRSTB", "IIFL", "IRB",
  "ITC", "INDIANB", "IEX", "IOC", "IRCTC", "IRFC", "IREDA", "IGL", "INDUSTOWER", "INDUSINDBK",
  "NAUKRI", "INFY", "INOXWIND", "INDIGO", "JSWENERGY", "JSWSTEEL", "JSL", "JINDALSTEL", "JIOFIN",
  "JUBLFOOD", "KEI", "KPITTECH", "KALYANKJIL", "KOTAKBANK", "LTF", "LICHSGFIN", "LTIM", "LT",
  "LAURUSLABS", "LICI", "LUPIN", "MRF", "LODHA", "MGL", "M&MFIN", "M&M", "MANAPPURAM", "MARICO",
  "MARUTI", "MFSL", "MAXHEALTH", "MPHASIS", "MCX", "MUTHOOTFIN", "NBCC", "NCC", "NHPC", "NMDC",
  "NTPC", "NATIONALUM", "NESTLEIND", "OBEROIRLTY", "ONGC", "OIL", "PAYTM", "OFSS", "POLICYBZR",
  "PIIND", "PNBHOUSING", "PAGEIND", "PATANJALI", "PERSISTENT", "PETRONET", "PIDILITIND", "PEL",
  "POLYCAB", "POONAWALLA", "PFC", "POWERGRID", "PRESTIGE", "PNB", "RBLBANK", "RECLTD", "RELIANCE",
  "SBICARD", "SBILIFE", "SHREECEM", "SJVN", "SRF", "MOTHERSON", "SHRIRAMFIN", "SIEMENS",
  "SOLARINDS", "SONACOMS", "SBIN", "SAIL", "SUNPHARMA", "SUPREMEIND", "SYNGENE", "TATACONSUM",
  "TITAGARH", "TVSMOTOR", "TATACHEM", "TATACOMM", "TCS", "TATAELXSI", "TATAMOTORS", "TATAPOWER",
  "TATASTEEL", "TATATECH", "TECHM", "FEDERALBNK", "INDHOTEL", "PHOENIXLTD", "RAMCOCEM", "TITAN",
  "TORNTPHARM", "TORNTPOWER", "TRENT", "TIINDIA", "UPL", "ULTRACEMCO", "UNIONBANK", "UNITDSPR",
  "VBL", "VEDL", "VOLTAS", "WIPRO", "YESBANK", "ZYDUSLIFE", "NIFTY50"]

/-- A match record accumulated by main: the tuple (symbol, kind, ohlc). -/
structure StockMatch where
  sym : String
  kind : Option DojiKind
  ohlc : Candle
deriving DecidableEq

/-- One iteration of main's loop body for a symbol, over an abstract
fetch result.  The body runs inside main's per-symbol try block, and the
guard is ok and (high - low) / open * 100 < 1 with short-circuit and: the
division is evaluated only when the classifier reported a match, and when
open = 0 it raises ZeroDivisionError, which the per-symbol except catches
so the symbol is skipped; that error path is the open = 0 branch
returning none.  Otherwise a match is produced exactly when the candle
range is strictly below one percent of the open price. -/
def process_symbol (fetch : String → List Tick) (sym : String) : Option StockMatch :=
  match aggregate_5min (fetch sym) with
  | none => none
  | some ohlc =>
      if (is_doji ohlc (1 / 10)).1 = true then
        if ohlc.o = 0 then none
        else if (ohlc.h - ohlc.l) / ohlc.o * 100 < 1 then
          some (StockMatch.mk sym (is_doji ohlc (1 / 10)).2 ohlc)
        else none
      else none

/-- One step of main's for loop: records that the symbol was fetched and
appends its match, if any, to the accumulator. -/
def driver_step (fetch : String → List Tick) (acc : List String × List StockMatch)
    (sym : String) : List String × List StockMatch :=
  (acc.1 ++ [sym],
    match process_symbol fetch sym with
    | some m => acc.2 ++ [m]
    | none => acc.2)

/-- main's loop over the symbol list: the symbols fetched, in order, and
the accumulated match list. -/
def main_loop (fetch : String → List Tick) : List String × List StockMatch :=
  SYMBOLS.foldl (driver_step fetch) ([], [])

/-- The per-run match list built by main. -/
def main_matches (fetch : String → List Tick) : List StockMatch :=
  (main_loop fetch).2

theorem foldl_driver_fst (fetch : String → List Tick) :
    ∀ (syms : List String) (acc : List String × List StockMatch),
      (syms.foldl (driver_step fetch) acc).1 = acc.1 ++ syms := by
  intro syms
  induction syms with
  | nil => intro acc; simp
  | cons s r ih =>
      intro acc
      rw [List.foldl_cons, ih]
      unfold driver_step
      simp

theorem foldl_driver_snd (fetch : String → List Tick) :
    ∀ (syms : List String) (acc : List String × List StockMatch),
      (syms.foldl (driver_step fetch) acc).2 =
        acc.2 ++ syms.filterMap (process_symbol fetch) := by
  intro syms
  induction syms with
  | nil => intro acc; simp
  | cons s r ih =>
      intro acc
      rw [List.foldl_cons, ih]
      unfold driver_step
      cases hp : process_symbol fetch s with
      | none => simp [List.filterMap_cons, hp]
      | some m => simp [List.filterMap_cons, hp]

/-- Ticks inside the window whose first and last prices are zero: the
aggregated candle has open = 0 with positive range and is classified as
a Gravestone Doji. -/
def zeroTicks : List Tick :=
  [Tick.mk 33300000 0, Tick.mk 33310000 1, Tick.mk 33320000 0]

theorem aggregate_zeroTicks : aggregate_5min zeroTicks = some (Candle.mk 0 1 0 0) := by
  unfold aggregate_5min
  rw [show windowPrices zeroTicks = [0, 1, 0] from rfl]
  dsimp only
  simp only [Option.some.injEq, Candle.mk.injEq]
  norm_num [List.foldl_cons, List.foldl_nil, max_def, min_def]

theorem is_doji_zeroCandle : (is_doji (Candle.mk 0 1 0 0) (1 / 10)).1 = true := by
  simp only [is_doji]
  norm_num [abs_of_nonneg, min_def, max_def]

/-- C7 counterexample: at a candle with open = 0 (window prices 0, 1, 0)
aggregation succeeds, the classifier reports a match, and the claim's
range condition (high - low) / open * 100 < 1 holds under the total
division that makes the claim readable at open = 0; yet no match is
appended, because the program raises ZeroDivisionError at
(high - low) / open and the per-symbol except skips the symbol. -/
theorem main_filter_counterexample :
    aggregate_5min zeroTicks = some (Candle.mk 0 1 0 0) ∧
    (is_doji (Candle.mk 0 1 0 0) (1 / 10)).1 = true ∧
    ((Candle.mk 0 1 0 0).h - (Candle.mk 0 1 0 0).l) / (Candle.mk 0 1 0 0).o * 100 < 1 ∧
    process_symbol (fun _ => zeroTicks) "RELIANCE" = none := by
  refine ⟨aggregate_zeroTicks, is_doji_zeroCandle, by norm_num, ?_⟩
  unfold process_symbol
  rw [show aggregate_5min ((fun _ => zeroTicks) "RELIANCE") = some (Candle.mk 0 1 0 0)
    from aggregate_zeroTicks]
  dsimp only
  rw [if_pos is_doji_zeroCandle, if_pos rfl]

/-- C7 amended: a match (symbol, kind, candle) is produced for a symbol
exactly when aggregation yields a candle, the classifier reports a
match, the candle open is nonzero, and (high - low) / open * 100 is
strictly below 1; when the classifier reports a match but the open is
zero, the range expression raises ZeroDivisionError, the per-symbol
except catches it and the symbol is skipped.  The sub-1% range filter
sits in the batch driver, outside the classifier, and the per-run match
list is the in-order collection of exactly these per-symbol results. -/
theorem main_filter_spec (fetch : String → List Tick) (sym : String) (m : StockMatch) :
    (process_symbol fetch sym = some m ↔
      ∃ cd, aggregate_5min (fetch sym) = some cd ∧
        (is_doji cd (1 / 10)).1 = true ∧
        cd.o ≠ 0 ∧
        (cd.h - cd.l) / cd.o * 100 < 1 ∧
        m = StockMatch.mk sym (is_doji cd (1 / 10)).2 cd) ∧
    (∀ cd, aggregate_5min (fetch sym) = some cd →
      (is_doji cd (1 / 10)).1 = true → cd.o = 0 →
      process_symbol fetch sym = none) ∧
    main_matches fetch = SYMBOLS.filterMap (process_symbol fetch) := by
  refine ⟨⟨?_, ?_⟩, ?_, ?_⟩
  · intro hp
    unfold process_symbol at hp
    cases hagg : aggregate_5min (fetch sym) with
    | none => rw [hagg] at hp; cases hp
    | some cd =>
        rw [hagg] at hp
        dsimp only at hp
        by_cases hok : (is_doji cd (1 / 10)).1 = true
        · rw [if_pos hok] at hp
          by_cases ho : cd.o = 0
          · rw [if_pos ho] at hp
            cases hp
          · rw [if_neg ho] at hp
            by_cases hr : (cd.h - cd.l) / cd.o * 100 < 1
            · rw [if_pos hr] at hp
              exact ⟨cd, rfl, hok, ho, hr, (Option.some.inj hp).symm⟩
            · rw [if_neg hr] at hp
              cases hp
        · rw [if_neg hok] at hp
          cases hp
  · rintro ⟨cd, hagg, hok, ho, hr, hm⟩
    unfold process_symbol
    rw [hagg]
    dsimp only
    rw [if_pos hok, if_neg ho, if_pos hr, hm]
  · intro cd hagg hok ho
    unfold process_symbol
    rw [hagg]
    dsimp only
    rw [if_pos hok, if_pos ho]
  · unfold main_matches main_loop
    rw [foldl_driver_snd fetch SYMBOLS ([], [])]
    simp

theorem main_filter_spec_witness :
    process_symbol (fun _ => zeroTicks) "TCS" = none :=
  (main_filter_spec (fun _ => zeroTicks) "TCS"
      (StockMatch.mk "TCS" none (Candle.mk 0 1 0 0))).2.1
    (Candle.mk 0 1 0 0) aggregate_zeroTicks is_doji_zeroCandle rfl

/-- The two secrets read at module load with os.getenv: a missing
variable yields none, and nothing in the script ever checks for that. -/
structure Env where
  gmailUser : Option String
  gmailAppPwd : Option String

/-- send_email_html over an abstract SMTP transport: it renders the
matches and calls server.login with the two module-level credentials
before sending; login with a missing (None) credential raises, and the
function installs no exception handler of its own. -/
def send_email_html (env : Env)
    (smtp : String → String → List StockMatch → Except String Unit)
    (ms : List StockMatch) : Except String Unit :=
  match env.gmailUser, env.gmailAppPwd with
  | some u, some p => smtp u p ms
  | _, _ => Except.error "SMTP login failed: missing credential"

/-- main from the script: the loop over SYMBOLS accumulates matches and
then, when the match list is non-empty, sends the email with no
surrounding try block.  The first component records which symbols were
fetched; the second is main's outcome, ok with the match list or the
exception that escaped. -/
def main_run (env : Env) (fetch : String → List Tick)
    (smtp : String → String → List StockMatch → Except String Unit) :
    List String × Except String (List StockMatch) :=
  let r := main_loop fetch
  if r.2.isEmpty then (r.1, Except.ok r.2)
  else
    match send_email_html env smtp r.2 with
    | Except.ok _ => (r.1, Except.ok r.2)
    | Except.error e => (r.1, Except.error e)

theorem main_loop_fst (fetch : String → List Tick) : (main_loop fetch).1 = SYMBOLS := by
  unfold main_loop
  rw [foldl_driver_fst]
  simp

theorem filterMap_none_nil (l : List String) :
    l.filterMap (process_symbol fun _ => []) = [] := by
  induction l with
  | nil => rfl
  | cons s r ih =>
      rw [List.filterMap_cons]
      have hn : process_symbol (fun _ => []) s = none := rfl
      rw [hn, ih]

/-- C8 counterexample: with both credentials absent from the process
environment the run does not abort: it still fetches all 209 symbols in
order and, with no matches, completes normally, never touching the
credentials. -/
theorem creds_counterexample :
    (main_run (Env.mk none none) (fun _ => []) (fun _ _ _ => Except.ok ())).1 = SYMBOLS ∧
    (main_run (Env.mk none none) (fun _ => []) (fun _ _ _ => Except.ok ())).2 =
      Except.ok [] ∧
    SYMBOLS ≠ [] := by
  have hloop2 : (main_loop fun _ => []).2 = [] := by
    unfold main_loop
    rw [foldl_driver_snd]
    rw [filterMap_none_nil]
    rfl
  refine ⟨?_, ?_, ?_⟩
  · simp [main_run, hloop2, main_loop_fst]
  · simp [main_run, hloop2]
  · unfold SYMBOLS
    simp

/-- C8 amended: the credentials are read with os.getenv and never
validated: main fetches and processes every symbol regardless of the
environment, and a missing credential surfaces only at the email step,
and only when the match list is non-empty. -/
theorem creds_unchecked (env : Env) (fetch : String → List Tick)
    (smtp : String → String → List StockMatch → Except String Unit) :
    (main_run env fetch smtp).1 = SYMBOLS ∧
    ((env.gmailUser = none ∨ env.gmailAppPwd = none) →
      (main_loop fetch).2 ≠ [] →
      (main_run env fetch smtp).2 =
        Except.error "SMTP login failed: missing credential") := by
  constructor
  · by_cases he : (main_loop fetch).2.isEmpty
    · simp [main_run, he, main_loop_fst]
    · cases hs : send_email_html env smtp (main_loop fetch).2 with
      | ok u => simp [main_run, he, hs, main_loop_fst]
      | error e => simp [main_run, he, hs, main_loop_fst]
  · intro hmiss hne
    have he : (main_loop fetch).2.isEmpty = false := by
      cases hl : (main_loop fetch).2 with
      | nil => exact absurd hl hne
      | cons a t => rfl
    have hsend : send_email_html env smtp (main_loop fetch).2 =
        Except.error "SMTP login failed: missing credential" := by
      rcases env with ⟨gu, gp⟩
      rcases gu with _ | u <;> rcases gp with _ | p <;>
        simp_all [send_email_html]
    simp [main_run, he, hsend]

/-- Ticks inside the window forming a Doji candle with a 0.55 percent
range, used as a concrete fetch result. -/
def dojiTicks : List Tick :=
  [Tick.mk 33300000 100, Tick.mk 33320000 (201 / 2),
   Tick.mk 33340000 (1999 / 20), Tick.mk 33360000 (10001 / 100)]

/-- A fetch oracle answering every symbol with dojiTicks. -/
def fetchDoji : String → List Tick := fun _ => dojiTicks

/-- The candle aggregated from dojiTicks. -/
def dojiCandle : Candle := Candle.mk 100 (201 / 2) (1999 / 20) (10001 / 100)

theorem is_doji_dojiCandle : is_doji dojiCandle (1 / 10) = (true, some DojiKind.doji) := by
  simp only [is_doji, dojiCandle]
  norm_num [abs_of_nonneg, min_def, max_def]

theorem process_symbol_fetchDoji (sym : String) :
    process_symbol fetchDoji sym =
      some (StockMatch.mk sym (some DojiKind.doji) dojiCandle) := by
  have hagg : aggregate_5min (fetchDoji sym) = some dojiCandle := by
    unfold fetchDoji
    unfold aggregate_5min
    rw [show windowPrices dojiTicks = [100, 201 / 2, 1999 / 20, 10001 / 100] from rfl]
    dsimp only
    unfold dojiCandle
    simp only [Option.some.injEq, Candle.mk.injEq]
    norm_num [List.foldl_cons, List.foldl_nil, max_def, min_def]
  unfold process_symbol
  rw [hagg]
  dsimp only
  rw [if_pos (show (is_doji dojiCandle (1 / 10)).1 = true by rw [is_doji_dojiCandle])]
  rw [if_neg (show ¬dojiCandle.o = 0 by norm_num [dojiCandle])]
  rw [if_pos (show (dojiCandle.h - dojiCandle.l) / dojiCandle.o * 100 < 1 by
    norm_num [dojiCandle])]
  rw [is_doji_dojiCandle]

theorem main_loop_fetchDoji :
    (main_loop fetchDoji).2 =
      SYMBOLS.map fun s => StockMatch.mk s (some DojiKind.doji) dojiCandle := by
  unfold main_loop
  rw [foldl_driver_snd]
  have hfm : ∀ l : List String,
      l.filterMap (process_symbol fetchDoji) =
        l.map fun s => StockMatch.mk s (some DojiKind.doji) dojiCandle := by
    intro l
    induction l with
    | nil => rfl
    | cons s r ih => rw [List.filterMap_cons, process_symbol_fetchDoji, ih, List.map_cons]
  rw [hfm]
  rfl

theorem main_loop_fetchDoji_ne : (main_loop fetchDoji).2 ≠ [] := by
  rw [main_loop_fetchDoji]
  intro hnil
  rw [List.map_eq_nil_iff] at hnil
  unfold SYMBOLS at hnil
  exact absurd hnil (List.cons_ne_nil _ _)

theorem creds_unchecked_witness :
    (main_run (Env.mk none (some "pwd")) fetchDoji (fun _ _ _ => Except.ok ())).1 =
      SYMBOLS ∧
    (main_run (Env.mk none (some "pwd")) fetchDoji (fun _ _ _ => Except.ok ())).2 =
      Except.error "SMTP login failed: missing credential" :=
  ⟨(creds_unchecked (Env.mk none (some "pwd")) fetchDoji (fun _ _ _ => Except.ok ())).1,
   (creds_unchecked (Env.mk none (some "pwd")) fetchDoji (fun _ _ _ => Except.ok ())).2
     (Or.inl rfl) main_loop_fetchDoji_ne⟩

/-- C9 counterexample: with valid credentials, a fetch that yields a
Doji match for every symbol, and an SMTP transport that fails, main ends
with the propagated SMTP exception: the delivery failure is not caught
and crashes the run. -/
theorem email_crash_counterexample :
    (main_run (Env.mk (some "user") (some "pwd")) fetchDoji
      (fun _ _ _ => Except.error "SMTPServerDisconnected")).2 =
      Except.error "SMTPServerDisconnected" := by
  have he : (main_loop fetchDoji).2.isEmpty = false := by
    cases hl : (main_loop fetchDoji).2 with
    | nil => exact absurd hl main_loop_fetchDoji_ne
    | cons a t => rfl
  simp [main_run, he, send_email_html]

/-- C9 amended: a failure while sending the notification email is not
caught anywhere: main calls send_email_html outside its per-symbol try
block and the function has no handler, so when the match list is
non-empty and the send step raises, the exception propagates out of main
and the run crashes with it instead of being logged. -/
theorem email_failure_propagates (env : Env) (fetch : String → List Tick)
    (smtp : String → String → List StockMatch → Except String Unit) (e : String)
    (hne : (main_loop fetch).2 ≠ [])
    (hs : send_email_html env smtp (main_loop fetch).2 = Except.error e) :
    (main_run env fetch smtp).2 = Except.error e := by
  have he : (main_loop fetch).2.isEmpty = false := by
    cases hl : (main_loop fetch).2 with
    | nil => exact absurd hl hne
    | cons a t => rfl
  simp [main_run, he, hs]

theorem email_failure_propagates_witness :
    (main_run (Env.mk (some "u2") (some "p2")) fetchDoji
      (fun _ _ _ => Except.error "connection reset")).2 =
      Except.error "connection reset" :=
  email_failure_propagates (Env.mk (some "u2") (some "p2")) fetchDoji
    (fun _ _ _ => Except.error "connection reset") "connection reset"
    main_loop_fetchDoji_ne (by simp [send_email_html])

/-- A module-level Python statement abstracted to the names it reads,
the names it binds, and whether it is the guarded main() call. -/
structure PyStmt where
  uses : List String
  binds : List String
  isMainCall : Bool
deriving DecidableEq

/-- Outcome of executing a statement list: a NameError on the first
unresolvable name, or completion; both record whether main() ran. -/
inductive ModuleResult where
  | nameError (missing : String) (mainRan : Bool)
  | completed (mainRan : Bool)
deriving DecidableEq

/-- Sequential module execution: each statement first resolves the
names it uses against the environment built so far, raising NameError
at the first unbound one, and otherwise adds its bindings. -/
def runStmts : List PyStmt → List String → Bool → ModuleResult
  | [], _, ran => ModuleResult.completed ran
  | st :: rest, env, ran =>
      match st.uses.find? (fun u => !env.contains u) with
      | some u => ModuleResult.nameError u ran
      | none => runStmts rest (env ++ st.binds) (ran || st.isMainCall)

/-- The module-level statements of doji_alert.py in source order: the
imports, load_dotenv(), the two getenv assignments, USER_AGENT, the
s.headers.update call (which reads the name s), the SYMBOLS assignment,
the five def statements, and the guarded main() call. -/
def doji_module : List PyStmt := [
  PyStmt.mk [] ["os"] false,
  PyStmt.mk [] ["datetime", "dtime"] false,
  PyStmt.mk [] ["Session"] false,
  PyStmt.mk [] ["MIMEMultipart"] false,
  PyStmt.mk [] ["MIMEText"] false,
  PyStmt.mk [] ["smtplib"] false,
  PyStmt.mk [] ["load_dotenv"] false,
  PyStmt.mk ["load_dotenv"] [] false,
  PyStmt.mk ["os"] ["GMAIL_USER"] false,
  PyStmt.mk ["os"] ["GMAIL_APP_PWD"] false,
  PyStmt.mk [] ["USER_AGENT"] false,
  PyStmt.mk ["s", "USER_AGENT"] [] false,
  PyStmt.mk [] ["SYMBOLS"] false,
  PyStmt.mk [] ["fetch_ticks"] false,
  PyStmt.mk [] ["aggregate_5min"] false,
  PyStmt.mk [] ["is_doji"] false,
  PyStmt.mk [] ["send_email_html"] false,
  PyStmt.mk [] ["main"] false,
  PyStmt.mk ["__name__", "main"] [] true]

/-- C1: loading the module raises NameError on the undefined name s
before the __main__ guard runs: main() never executes, so no fetch,
aggregation, classification or email ever occurs; moreover no
module-level statement binds s (the only s is local to fetch_ticks). -/
theorem module_load_name_error :
    runStmts doji_module ["__name__"] false = ModuleResult.nameError "s" false ∧
    doji_module.all (fun st => !st.binds.contains "s") = true := by
  constructor
  · rfl
  · rfl
